import Mathlib

/-
Verification of the parameter marshalling layer (parameters.rs) and the
typed publish/subscribe layer (pubsub.rs) of the ros2-client repository.

Modelling conventions:
- Rust i64 payloads are moved verbatim by all the code under study (no
  arithmetic, no comparison), so they are embedded as Lean Int.
- Rust f64 payloads are likewise only moved, never inspected, so they are
  embedded as an opaque 64-bit pattern F64; equality of F64 values is
  structural (bit-pattern) equality, which coincides with "the payload is
  preserved verbatim".
- Rust u8 values (the wire discriminant) are embedded as Nat; every value
  the code ever writes there is between 0 and 9, and the decoder treats
  every value outside 0 to 9 identically, so the 256-value bound is
  immaterial to the claims.
- Vec<T> is embedded as List T, String as Lean String.
-/

/-- Opaque embedding of a Rust f64: the code under study only moves doubles
between slots and never computes with them, so a double is represented by
its bit pattern. -/
structure F64 where
  bits : Nat
deriving DecidableEq, Repr

/-- Embedding of ParameterValue from parameters.rs: the Rust-like tagged
representation of a ROS2 parameter value, with exactly ten alternatives. -/
inductive ParameterValue where
  | NotSet : ParameterValue
  | Boolean : Bool → ParameterValue
  | Integer : Int → ParameterValue
  | Double : F64 → ParameterValue
  | String : String → ParameterValue
  | ByteArray : List Nat → ParameterValue
  | BooleanArray : List Bool → ParameterValue
  | IntegerArray : List Int → ParameterValue
  | DoubleArray : List F64 → ParameterValue
  | StringArray : List String → ParameterValue
deriving DecidableEq, Repr

/-- Embedding of the Rust-like Parameter struct: a name plus a value. -/
structure Parameter where
  name : String
  value : ParameterValue
deriving DecidableEq, Repr

/-- Embedding of raw::ParameterValue from parameters.rs: the fixed-layout
wire record with a discriminant and one payload slot per alternative. -/
structure RawParameterValue where
  ptype : Nat
  boolean_value : Bool
  int_value : Int
  double_value : F64
  string_value : String
  byte_array : List Nat
  bool_array : List Bool
  int_array : List Int
  double_array : List F64
  string_array : List String
deriving DecidableEq, Repr

/-- Embedding of the raw::Parameter wire struct. -/
structure RawParameter where
  name : String
  value : RawParameterValue
deriving DecidableEq, Repr

/-- Embedding of the raw::SetParametersResult wire struct. -/
structure RawSetParametersResult where
  successful : Bool
  reason : String
deriving DecidableEq, Repr

namespace ParameterType

/-- Constant raw::ParameterType::NOT_SET. -/
def NOT_SET : Nat := 0

/-- Constant raw::ParameterType::BOOL. -/
def BOOL : Nat := 1

/-- Constant raw::ParameterType::INTEGER. -/
def INTEGER : Nat := 2

/-- Constant raw::ParameterType::DOUBLE. -/
def DOUBLE : Nat := 3

/-- Constant raw::ParameterType::STRING. -/
def STRING : Nat := 4

/-- Constant raw::ParameterType::BYTE_ARRAY. -/
def BYTE_ARRAY : Nat := 5

/-- Constant raw::ParameterType::BOOL_ARRAY. -/
def BOOL_ARRAY : Nat := 6

/-- Constant raw::ParameterType::INTEGER_ARRAY. -/
def INTEGER_ARRAY : Nat := 7

/-- Constant raw::ParameterType::DOUBLE_ARRAY. -/
def DOUBLE_ARRAY : Nat := 8

/-- Constant raw::ParameterType::STRING_ARRAY. -/
def STRING_ARRAY : Nat := 9

end ParameterType


/-- Embedding of ParameterValue::to_parameter_type_enum from parameters.rs. -/
def ParameterValue.to_parameter_type_enum (p : ParameterValue) : Nat :=
  match p with
  | ParameterValue.NotSet => 0
  | ParameterValue.Boolean _ => 1
  | ParameterValue.Integer _ => 2
  | ParameterValue.Double _ => 3
  | ParameterValue.String _ => 4
  | ParameterValue.ByteArray _ => 5
  | ParameterValue.BooleanArray _ => 6
  | ParameterValue.IntegerArray _ => 7
  | ParameterValue.DoubleArray _ => 8
  | ParameterValue.StringArray _ => 9

/-- Embedding of impl From<ParameterValue> for raw::ParameterValue
(the encoder): start from the all-defaults record, then set the
discriminant and the one payload slot of the active alternative. -/
def RawParameterValue.from_value (p : ParameterValue) : RawParameterValue :=
  let value : RawParameterValue :=
    { ptype := ParameterType.NOT_SET
      boolean_value := false
      int_value := 0
      double_value := F64.mk 0
      string_value := ""
      byte_array := []
      bool_array := []
      int_array := []
      double_array := []
      string_array := [] }
  match p with
  | ParameterValue.NotSet => value
  | ParameterValue.Boolean b =>
      { value with ptype := ParameterType.BOOL, boolean_value := b }
  | ParameterValue.Integer i =>
      { value with ptype := ParameterType.INTEGER, int_value := i }
  | ParameterValue.Double d =>
      { value with ptype := ParameterType.DOUBLE, double_value := d }
  | ParameterValue.String s =>
      { value with ptype := ParameterType.STRING, string_value := s }
  | ParameterValue.ByteArray a =>
      { value with ptype := ParameterType.BYTE_ARRAY, byte_array := a }
  | ParameterValue.BooleanArray a =>
      { value with ptype := ParameterType.BOOL_ARRAY, bool_array := a }
  | ParameterValue.IntegerArray a =>
      { value with ptype := ParameterType.INTEGER_ARRAY, int_array := a }
  | ParameterValue.DoubleArray a =>
      { value with ptype := ParameterType.DOUBLE_ARRAY, double_array := a }
  | ParameterValue.StringArray a =>
      { value with ptype := ParameterType.STRING_ARRAY, string_array := a }

/-- Embedding of impl From<raw::ParameterValue> for ParameterValue
(the decoder): match on the discriminant, read only the corresponding
slot; any discriminant outside 0 to 9 falls back to NotSet. -/
def ParameterValue.from_raw (rpv : RawParameterValue) : ParameterValue :=
  match rpv.ptype with
  | 0 => ParameterValue.NotSet
  | 1 => ParameterValue.Boolean rpv.boolean_value
  | 2 => ParameterValue.Integer rpv.int_value
  | 3 => ParameterValue.Double rpv.double_value
  | 4 => ParameterValue.String rpv.string_value
  | 5 => ParameterValue.ByteArray rpv.byte_array
  | 6 => ParameterValue.BooleanArray rpv.bool_array
  | 7 => ParameterValue.IntegerArray rpv.int_array
  | 8 => ParameterValue.DoubleArray rpv.double_array
  | 9 => ParameterValue.StringArray rpv.string_array
  | _ => ParameterValue.NotSet

/-- Embedding of impl From<Parameter> for raw::Parameter: copy the name,
convert the value. -/
def RawParameter.from_param (p : Parameter) : RawParameter :=
  { name := p.name, value := RawParameterValue.from_value p.value }

/-- Embedding of impl From<raw::Parameter> for Parameter: copy the name,
convert the value. -/
def Parameter.from_raw (rp : RawParameter) : Parameter :=
  { name := rp.name, value := ParameterValue.from_raw rp.value }

/-- Embedding of the type alias SetParametersResult = Result<(), String>. -/
abbrev SetParametersResult := Except String Unit

/-- Embedding of impl From<SetParametersResult> for raw::SetParametersResult. -/
def RawSetParametersResult.from_result (s : SetParametersResult) : RawSetParametersResult :=
  match s with
  | Except.ok _ => { successful := true, reason := "" }
  | Except.error reason => { successful := false, reason := reason }

/-- Modelled from the spec: the decode direction for the settable-parameters
outcome is not among the source files (only the encode direction is);
section 4.1 of the spec states that decoding is the exact inverse and that a
record with flag true is accepted as success with the reason ignored. -/
def SetParametersResult.from_raw (r : RawSetParametersResult) : SetParametersResult :=
  if r.successful then Except.ok () else Except.error r.reason

/-- Specification-side predicate (following the words of the spec, for
comparison with the encoder from the source): every wire slot other than the
one selected by the given tag holds its fixed default. -/
def slots_default_except (tag : Nat) (r : RawParameterValue) : Prop :=
  (tag = 1 ∨ r.boolean_value = false) ∧
  (tag = 2 ∨ r.int_value = 0) ∧
  (tag = 3 ∨ r.double_value = F64.mk 0) ∧
  (tag = 4 ∨ r.string_value = "") ∧
  (tag = 5 ∨ r.byte_array = []) ∧
  (tag = 6 ∨ r.bool_array = []) ∧
  (tag = 7 ∨ r.int_array = []) ∧
  (tag = 8 ∨ r.double_array = []) ∧
  (tag = 9 ∨ r.string_array = [])

/-- Specification-side predicate (following the words of the spec): the wire
record holds the payload of the given tagged value in the slot dedicated to
its alternative. -/
def payload_in_slot : ParameterValue → RawParameterValue → Prop
  | ParameterValue.NotSet, _ => True
  | ParameterValue.Boolean b, r => r.boolean_value = b
  | ParameterValue.Integer i, r => r.int_value = i
  | ParameterValue.Double d, r => r.double_value = d
  | ParameterValue.String s, r => r.string_value = s
  | ParameterValue.ByteArray a, r => r.byte_array = a
  | ParameterValue.BooleanArray a, r => r.bool_array = a
  | ParameterValue.IntegerArray a, r => r.int_array = a
  | ParameterValue.DoubleArray a, r => r.double_array = a
  | ParameterValue.StringArray a, r => r.string_array = a

/-- Boolean test (used to state slot-sensitivity hypotheses executably):
the two wire records agree on the slot selected by the discriminant of the
first one. -/
def selected_slot_eq (r₁ r₂ : RawParameterValue) : Bool :=
  match r₁.ptype with
  | 0 => true
  | 1 => decide (r₁.boolean_value = r₂.boolean_value)
  | 2 => decide (r₁.int_value = r₂.int_value)
  | 3 => decide (r₁.double_value = r₂.double_value)
  | 4 => decide (r₁.string_value = r₂.string_value)
  | 5 => decide (r₁.byte_array = r₂.byte_array)
  | 6 => decide (r₁.bool_array = r₂.bool_array)
  | 7 => decide (r₁.int_array = r₂.int_array)
  | 8 => decide (r₁.double_array = r₂.double_array)
  | 9 => decide (r₁.string_array = r₂.string_array)
  | _ => true

/-
Embedding of pubsub.rs: Subscription, MessageInfo, and the helper
dcc_to_value_and_messageinfo, plus the collaborator transport
(rustdds SimpleDataReader) modelled from section 6 of the spec.
-/

/-- Embedding of the rustdds Timestamp used by pubsub.rs: the code under
study only copies timestamps and uses the constant Timestamp::ZERO, so a
timestamp is an opaque tick count. -/
structure Timestamp where
  ticks : Nat
deriving DecidableEq, Repr

/-- Constant Timestamp::ZERO, the epoch/zero timestamp value. -/
def Timestamp.ZERO : Timestamp := Timestamp.mk 0

/-- Embedding of a rustdds GUID: an opaque stable endpoint identifier,
only copied and compared by the code under study. -/
structure GUID where
  id : Nat
deriving DecidableEq, Repr

/-- Embedding of a rustdds SequenceNumber: an opaque per-endpoint sample
counter, only copied by the code under study. -/
structure SequenceNumber where
  n : Int
deriving DecidableEq, Repr

/-- Embedding of rustdds rpc::SampleIdentity: a writer GUID plus a
sequence number. -/
structure SampleIdentity where
  writer_guid : GUID
  sequence_number : SequenceNumber
deriving DecidableEq, Repr

/-- Embedding of the MessageInfo struct of pubsub.rs: per-message metadata
attached to every received sample. -/
structure MessageInfo where
  received_timestamp : Timestamp
  source_timestamp : Option Timestamp
  sequence_number : SequenceNumber
  publisher : GUID
  related_sample_identity : Option SampleIdentity
deriving DecidableEq, Repr

/-- Embedding of rustdds no_key::DeserializedCacheChange<M>: one buffered,
already deserialized sample together with the transport-level information
recorded for that exact sample (fields as read by pubsub.rs: the
sequence_number field and the source_timestamp, writer_guid and
related_sample_identity accessors, plus into_value). -/
structure DeserializedCacheChange (M : Type) where
  source_timestamp : Option Timestamp
  sequence_number : SequenceNumber
  writer_guid : GUID
  related_sample_identity : Option SampleIdentity
  value : M
deriving DecidableEq, Repr

/-- Embedding of DeserializedCacheChange::into_value: consume the cache
change and return the deserialized payload. -/
def DeserializedCacheChange.into_value {M : Type} (dcc : DeserializedCacheChange M) : M :=
  dcc.value

/-- Embedding of rustdds SampleInfo as consumed by pubsub.rs: per-sample
transport information exposed through the accessors source_timestamp,
sample_identity, publication_handle and related_sample_identity. -/
structure SampleInfo where
  source_timestamp : Option Timestamp
  sample_identity : SampleIdentity
  publication_handle : GUID
  related_sample_identity : Option SampleIdentity
deriving DecidableEq, Repr

/-- Embedding of impl From<&SampleInfo> for MessageInfo from pubsub.rs:
the receipt time is hard-coded to Timestamp::ZERO (marked TODO in the
source) and the remaining four fields are copied from the sample info. -/
def MessageInfo.from_sample_info (sample_info : SampleInfo) : MessageInfo :=
  { received_timestamp := Timestamp.ZERO
    source_timestamp := sample_info.source_timestamp
    sequence_number := sample_info.sample_identity.sequence_number
    publisher := sample_info.publication_handle
    related_sample_identity := sample_info.related_sample_identity }

/-- Embedding of impl From<&DeserializedCacheChange<M>> for MessageInfo
from pubsub.rs: the receipt time is hard-coded to Timestamp::ZERO (marked
TODO in the source) and the remaining four fields are copied from the
cache change. -/
def MessageInfo.from_dcc {M : Type} (dcc : DeserializedCacheChange M) : MessageInfo :=
  { received_timestamp := Timestamp.ZERO
    source_timestamp := dcc.source_timestamp
    sequence_number := dcc.sequence_number
    publisher := dcc.writer_guid
    related_sample_identity := dcc.related_sample_identity }

/-- Embedding of the helper dcc_to_value_and_messageinfo from pubsub.rs:
build the MessageInfo from the cache change, then pair it with the value
extracted from the same cache change. -/
def dcc_to_value_and_messageinfo {M : Type} (dcc : DeserializedCacheChange M) :
    M × MessageInfo :=
  let mi := MessageInfo.from_dcc dcc
  (dcc.into_value, mi)

/-- Embedding of rustdds ReadError as used by pubsub.rs: the code only
constructs the Internal variant (through read_error_internal) and passes
other errors through unchanged. -/
inductive ReadError where
  | Internal : String → ReadError
  | Other : String → ReadError
deriving DecidableEq, Repr

/-- Embedding of the rustdds read_error_internal macro: an Err result
carrying an Internal read error with the given message. -/
def read_error_internal {α : Type} (reason : String) : Except ReadError α :=
  Except.error (ReadError.Internal reason)

/-- Modelled from the spec: the collaborator transport read-side buffered
endpoint (rustdds no_key::SimpleDataReaderCdr, not among the source files).
Section 6 of the spec gives its contract: a buffer of received samples
consumed in arrival order by a non-suspending take-one-if-present
operation, plus internal read-notification bookkeeping that the consumer
drains. The state is the pending notification count and the ordered sample
buffer, oldest first. -/
structure SimpleDataReader (M : Type) where
  read_notifications : Nat
  buffer : List (DeserializedCacheChange M)
deriving DecidableEq, Repr

/-- Modelled from the spec: drain_read_notifications of the collaborator
endpoint clears the pending notification bookkeeping and leaves the sample
buffer untouched. -/
def SimpleDataReader.drain_read_notifications {M : Type}
    (r : SimpleDataReader M) : SimpleDataReader M :=
  { r with read_notifications := 0 }

/-- Modelled from the spec: try_take_one of the collaborator endpoint
removes and returns the oldest buffered sample if one is present, else
returns none; per the spec contract it is non-suspending and, with no data
available, reports absence rather than an error. -/
def SimpleDataReader.try_take_one {M : Type} (r : SimpleDataReader M) :
    Except ReadError (Option (DeserializedCacheChange M)) × SimpleDataReader M :=
  match r.buffer with
  | [] => (Except.ok none, r)
  | d :: rest => (Except.ok (some d), { r with buffer := rest })

/-- Embedding of Subscription::take from pubsub.rs over the modelled
endpoint state: drain the read notifications, try to take one sample, and
map a present sample through dcc_to_value_and_messageinfo. The returned
state is the endpoint state after the call. -/
def Subscription.take {M : Type} (r : SimpleDataReader M) :
    Except ReadError (Option (M × MessageInfo)) × SimpleDataReader M :=
  let r₁ := SimpleDataReader.drain_read_notifications r
  match SimpleDataReader.try_take_one r₁ with
  | (Except.error e, r₂) => (Except.error e, r₂)
  | (Except.ok ds, r₂) => (Except.ok (ds.map dcc_to_value_and_messageinfo), r₂)

/-- Embedding of Subscription::take_seed from pubsub.rs over the modelled
endpoint state: identical to take except that the deserialization step is
replaced by the caller-supplied seed; in this model the buffered samples
are already deserialized, so the seed step is folded into the buffered
value and the remaining structure (drain, take one, map through
dcc_to_value_and_messageinfo) is the same as take. -/
def Subscription.take_seed {M : Type} (r : SimpleDataReader M) :
    Except ReadError (Option (M × MessageInfo)) × SimpleDataReader M :=
  let r₁ := SimpleDataReader.drain_read_notifications r
  match SimpleDataReader.try_take_one r₁ with
  | (Except.error e, r₂) => (Except.error e, r₂)
  | (Except.ok ds, r₂) => (Except.ok (ds.map dcc_to_value_and_messageinfo), r₂)

/-- Embedding of Subscription::async_take from pubsub.rs: the suspending
take awaits the next item of the endpoint async stream; the argument is
that resolved next item, where none is the end-of-stream signal. An error
item is passed through, a sample is mapped through
dcc_to_value_and_messageinfo, and end of stream becomes an Internal read
error via read_error_internal. -/
def Subscription.async_take {M : Type}
    (next : Option (Except ReadError (DeserializedCacheChange M))) :
    Except ReadError (M × MessageInfo) :=
  match next with
  | some (Except.error e) => Except.error e
  | some (Except.ok ds) => Except.ok (dcc_to_value_and_messageinfo ds)
  | none =>
      read_error_internal "async_take(): SimpleDataReader value stream unexpectedly ended!"

/-- Embedding of the per-item mapping of Subscription::async_stream from
pubsub.rs: each stream item, a read result, is mapped through
dcc_to_value_and_messageinfo. -/
def Subscription.async_stream_item {M : Type}
    (result : Except ReadError (DeserializedCacheChange M)) :
    Except ReadError (M × MessageInfo) :=
  result.map dcc_to_value_and_messageinfo

/-- Shared helper: decoding an encoded tagged value gives the value back. -/
theorem from_raw_from_value_eq (v : ParameterValue) :
    ParameterValue.from_raw (RawParameterValue.from_value v) = v := by
  cases v <;> rfl

/-
Claim theorems.
-/

/-- C1: for every tagged value v, over all ten alternatives (including
empty strings and empty sequences, which are just particular payloads of
the quantified alternatives), decoding the encoded wire record yields v
back; the encoder is a total Lean function, so it never fails. -/
theorem tagged_value_roundtrip (v : ParameterValue) :
    ParameterValue.from_raw (RawParameterValue.from_value v) = v :=
  from_raw_from_value_eq v

/-- C2: for every tagged value v, the encoded wire record carries the tag
number computed by to_parameter_type_enum as its discriminant, holds the
payload of v in the slot dedicated to the active alternative, and leaves
every one of the other nine slots at its fixed default. -/
theorem encode_slot_isolation (v : ParameterValue) :
    (RawParameterValue.from_value v).ptype = ParameterValue.to_parameter_type_enum v ∧
    payload_in_slot v (RawParameterValue.from_value v) ∧
    slots_default_except (ParameterValue.to_parameter_type_enum v)
      (RawParameterValue.from_value v) := by
  cases v <;>
    simp [RawParameterValue.from_value, ParameterValue.to_parameter_type_enum,
      payload_in_slot, slots_default_except, ParameterType.NOT_SET,
      ParameterType.BOOL, ParameterType.INTEGER, ParameterType.DOUBLE,
      ParameterType.STRING, ParameterType.BYTE_ARRAY, ParameterType.BOOL_ARRAY,
      ParameterType.INTEGER_ARRAY, ParameterType.DOUBLE_ARRAY,
      ParameterType.STRING_ARRAY]

/-- C3: decoding any wire record whose discriminant lies outside 0 to 9
yields NotSet, whatever the payload slots contain; the decoder is a total
Lean function, so the unknown discriminant is a defined fallback and never
a failure. -/
theorem unknown_discriminant_decodes_to_notset (r : RawParameterValue)
    (h : 9 < r.ptype) :
    ParameterValue.from_raw r = ParameterValue.NotSet := by
  obtain ⟨p, b, i, d, s, ba, la, ia, da, sa⟩ := r
  have h' : 9 < p := h
  obtain ⟨m, rfl⟩ : ∃ m, p = m + 10 := ⟨p - 10, by omega⟩
  rfl

/-- Witness for C3: the record with discriminant 255 and junk in every
payload slot decodes to NotSet. -/
theorem unknown_discriminant_decodes_to_notset_witness :
    9 < (255 : Nat) ∧
    ParameterValue.from_raw
      { ptype := 255, boolean_value := true, int_value := 7,
        double_value := F64.mk 3, string_value := "junk", byte_array := [1],
        bool_array := [true], int_array := [2], double_array := [F64.mk 5],
        string_array := ["x"] } = ParameterValue.NotSet :=
  ⟨by decide, unknown_discriminant_decodes_to_notset _ (by decide)⟩

/-- C4: encoding the success outcome yields the record with flag true and
empty reason, encoding a failure with a reason yields flag false with that
reason, decoding is the exact inverse of encoding on every outcome, and an
incoming record with flag true and any reason (in particular a non-empty
one) decodes to success with the reason ignored. -/
theorem set_parameters_result_marshalling (r : String) (res : SetParametersResult) :
    RawSetParametersResult.from_result (Except.ok ())
      = { successful := true, reason := "" } ∧
    RawSetParametersResult.from_result (Except.error r)
      = { successful := false, reason := r } ∧
    SetParametersResult.from_raw (RawSetParametersResult.from_result res) = res ∧
    SetParametersResult.from_raw { successful := true, reason := r }
      = Except.ok () := by
  refine ⟨rfl, rfl, ?_, rfl⟩
  cases res <;> rfl

/-- C5: over the modelled buffered endpoint, take first drains the pending
read notifications and then removes and returns exactly the oldest
buffered sample with its metadata when one is present, returning an
error-free absent result when the buffer is empty; on a buffer of two
samples, two sequential take calls return the two samples exactly once in
arrival order and a third call returns absent; with no new data every
further call keeps yielding the error-free absent result. -/
theorem subscription_take_semantics (M : Type) (n : Nat)
    (buf : List (DeserializedCacheChange M)) (d₁ d₂ : DeserializedCacheChange M) :
    Subscription.take { read_notifications := n, buffer := buf }
      = (Except.ok ((buf.head?).map dcc_to_value_and_messageinfo),
         { read_notifications := 0, buffer := buf.tail }) ∧
    (Subscription.take { read_notifications := n, buffer := [d₁, d₂] }).fst
      = Except.ok (some (dcc_to_value_and_messageinfo d₁)) ∧
    (Subscription.take
        (Subscription.take { read_notifications := n, buffer := [d₁, d₂] }).snd).fst
      = Except.ok (some (dcc_to_value_and_messageinfo d₂)) ∧
    (Subscription.take
        (Subscription.take
          (Subscription.take { read_notifications := n, buffer := [d₁, d₂] }).snd).snd).fst
      = Except.ok none := by
  refine ⟨?_, rfl, rfl, rfl⟩
  cases buf <;> rfl

/-- C6: the metadata paired with a decoded sample is built from that exact
cache change: value, sequence number, publisher identity, optional origin
timestamp and optional correlation identity are copied verbatim from the
one cache change handed to dcc_to_value_and_messageinfo, and each of the
four consumption paths (take, take_seed, async_take, the async stream
item mapping) pairs the sample it removed or received with metadata from
that same sample. -/
theorem metadata_from_exact_sample (M : Type) (dcc : DeserializedCacheChange M)
    (n : Nat) (rest : List (DeserializedCacheChange M)) :
    (dcc_to_value_and_messageinfo dcc).fst = dcc.value ∧
    (dcc_to_value_and_messageinfo dcc).snd.sequence_number = dcc.sequence_number ∧
    (dcc_to_value_and_messageinfo dcc).snd.publisher = dcc.writer_guid ∧
    (dcc_to_value_and_messageinfo dcc).snd.source_timestamp = dcc.source_timestamp ∧
    (dcc_to_value_and_messageinfo dcc).snd.related_sample_identity
      = dcc.related_sample_identity ∧
    (Subscription.take { read_notifications := n, buffer := dcc :: rest }).fst
      = Except.ok (some (dcc.value, MessageInfo.from_dcc dcc)) ∧
    (Subscription.take_seed { read_notifications := n, buffer := dcc :: rest }).fst
      = Except.ok (some (dcc.value, MessageInfo.from_dcc dcc)) ∧
    Subscription.async_take (some (Except.ok dcc))
      = Except.ok (dcc.value, MessageInfo.from_dcc dcc) ∧
    Subscription.async_stream_item (Except.ok dcc)
      = Except.ok (dcc.value, MessageInfo.from_dcc dcc) :=
  ⟨rfl, rfl, rfl, rfl, rfl, rfl, rfl, rfl, rfl⟩

/-- C7: when the endpoint async stream signals end of sequence (next item
is none), async_take returns the Internal read error built by
read_error_internal, and it never returns a normal success result in that
case. -/
theorem async_take_end_of_stream_error (M : Type) :
    Subscription.async_take (M := M) none
      = Except.error (ReadError.Internal
          "async_take(): SimpleDataReader value stream unexpectedly ended!") ∧
    ∀ v : M × MessageInfo, Subscription.async_take (M := M) none ≠ Except.ok v := by
  refine ⟨rfl, ?_⟩
  intro v h
  cases h

/-- C8: both MessageInfo construction paths, from transport sample
information and from a deserialized cache change, fix the receipt-time
field to the constant zero timestamp rather than capturing the local
receipt time. -/
theorem received_timestamp_is_zero_placeholder (M : Type) (si : SampleInfo)
    (dcc : DeserializedCacheChange M) :
    (MessageInfo.from_sample_info si).received_timestamp = Timestamp.ZERO ∧
    (MessageInfo.from_dcc dcc).received_timestamp = Timestamp.ZERO :=
  ⟨rfl, rfl⟩

/-- C9: decoding reads only the slot selected by the discriminant: two wire
records with the same discriminant in 0 to 9 that agree on the slot that
discriminant selects decode to the same tagged value, however the other
nine slots differ. -/
theorem decode_depends_only_on_selected_slot (r₁ r₂ : RawParameterValue)
    (hp : r₁.ptype = r₂.ptype) (hle : r₁.ptype ≤ 9)
    (hslot : selected_slot_eq r₁ r₂ = true) :
    ParameterValue.from_raw r₁ = ParameterValue.from_raw r₂ := by
  obtain ⟨p₁, b₁, i₁, d₁, s₁, y₁, l₁, a₁, f₁, t₁⟩ := r₁
  obtain ⟨p₂, b₂, i₂, d₂, s₂, y₂, l₂, a₂, f₂, t₂⟩ := r₂
  have hp' : p₁ = p₂ := hp
  have hle' : p₁ ≤ 9 := hle
  subst hp'
  have hcases : p₁ = 0 ∨ p₁ = 1 ∨ p₁ = 2 ∨ p₁ = 3 ∨ p₁ = 4 ∨ p₁ = 5 ∨
      p₁ = 6 ∨ p₁ = 7 ∨ p₁ = 8 ∨ p₁ = 9 := by omega
  rcases hcases with h | h | h | h | h | h | h | h | h | h <;> subst h <;>
    first
      | rfl
      | (have he := of_decide_eq_true hslot
         subst he
         rfl)

/-- Witness for C9: two concrete records, both with discriminant 4 and the
same string slot but differing in every other payload slot, decode to the
same tagged value. -/
theorem decode_depends_only_on_selected_slot_witness :
    (RawParameterValue.mk 4 true 7 (F64.mk 1) "s" [3] [] [] [] []).ptype
      = (RawParameterValue.mk 4 false 0 (F64.mk 0) "s" [] [true] [] [] ["x"]).ptype ∧
    (RawParameterValue.mk 4 true 7 (F64.mk 1) "s" [3] [] [] [] []).ptype ≤ 9 ∧
    selected_slot_eq
      (RawParameterValue.mk 4 true 7 (F64.mk 1) "s" [3] [] [] [] [])
      (RawParameterValue.mk 4 false 0 (F64.mk 0) "s" [] [true] [] [] ["x"]) = true ∧
    ParameterValue.from_raw (RawParameterValue.mk 4 true 7 (F64.mk 1) "s" [3] [] [] [] [])
      = ParameterValue.from_raw
          (RawParameterValue.mk 4 false 0 (F64.mk 0) "s" [] [true] [] [] ["x"]) :=
  ⟨rfl, by decide, by decide,
    decode_depends_only_on_selected_slot _ _ rfl (by decide) (by decide)⟩

/-- C10: the Parameter conversions perform no name validation: for every
Parameter, including one whose name is the empty string, the conversion to
the wire record preserves the name verbatim and the round trip through the
wire record gives the parameter back unchanged (name and value); both
conversions are total Lean functions, so nothing at this layer rejects any
name. -/
theorem parameter_conversion_preserves_name (p : Parameter) :
    (RawParameter.from_param p).name = p.name ∧
    Parameter.from_raw (RawParameter.from_param p) = p := by
  refine ⟨rfl, ?_⟩
  cases p with
  | mk name value =>
      simp [RawParameter.from_param, Parameter.from_raw, from_raw_from_value_eq]
